import Mathlib

/-!
Shallow embedding of the MBTI conversational-assessment service
(`src/services/aiService.js` together with `src/config/config.js`).

Strings are handled through their underlying character lists; JavaScript's
`String.prototype.includes`, `toLowerCase`, `split`, the regular expressions
`/\{[\s\S]*\}/` and `/[A-Z]{4}/`, and `JSON.parse` are embedded as executable
Lean functions below.  Stateful module-level variables (`conversationHistory`,
`userInfo`, `isAnalyzing`) become an explicit `SessionState` threaded through
the operations, and each external LLM gateway call is passed in as an
`Except String String` value (the reply text, or the thrown transport error).
-/

namespace MbtiBot

/-! ## Character and string helpers (JS string primitives) -/

/-- `isPrefixCh n h` holds when the character list `n` is a prefix of `h`. -/
def isPrefixCh : List Char → List Char → Bool
  | [], _ => true
  | _ :: _, [] => false
  | a :: as, b :: bs => a = b && isPrefixCh as bs

/-- JS `hay.includes(needle)`: `needle` occurs as a contiguous substring of `hay`. -/
def containsSub (needle : List Char) : List Char → Bool
  | [] => needle.isEmpty
  | c :: t => isPrefixCh needle (c :: t) || containsSub needle t

/-- JS `toLowerCase` restricted to ASCII letters; the hand-curated keyword
tables below are caseless CJK text, for which this agrees with the JS
full-Unicode lowercasing. -/
def jsToLowerChar (c : Char) : Char :=
  if 'A' ≤ c && c ≤ 'Z' then Char.ofNat (c.toNat + 32) else c

/-- JS `texts.join(' ')`. -/
def joinWithSpace : List String → List Char
  | [] => []
  | [t] => t.data
  | t :: u :: rest => t.data ++ ' ' :: joinWithSpace (u :: rest)

/-- JS `s.split(sep)` for a one-character separator. -/
def splitOnChar (sep : Char) : List Char → List (List Char)
  | [] => [[]]
  | c :: rest =>
    let r := splitOnChar sep rest
    if c = sep then [] :: r
    else
      match r with
      | h :: t => (c :: h) :: t
      | [] => [[c]]

/-! ## Conversation turns -/

/-- The two chat roles stored in `conversationHistory`
(`HumanMessage` / `AIMessage`). -/
inductive Role where
  | user
  | assistant
deriving DecidableEq, Repr

/-- One message of the conversation history. -/
structure Turn where
  role : Role
  content : String
deriving DecidableEq, Repr

/-! ## JSON values and `JSON.parse`

`parseAnalysisResult` feeds the brace-delimited candidate substring to the
JavaScript built-in `JSON.parse`, which either returns a value or throws a
`SyntaxError`.  We embed JSON values as an inductive type (numbers keep their
source lexeme, which suffices for the truthiness tests the service performs)
and `JSON.parse` as a fuel-indexed recursive-descent parser over the standard
JSON grammar, returning `none` where `JSON.parse` throws. -/

inductive Json where
  | obj (fields : List (String × Json))
  | arr (items : List Json)
  | str (value : String)
  | num (lexeme : String)
  | bool (b : Bool)
  | null

/-- JS object property access `o[k]` on a parsed object: with duplicate keys,
`JSON.parse` keeps the last occurrence. -/
def lookupLast (k : String) : List (String × Json) → Option Json
  | [] => none
  | (k', v) :: rest =>
    match lookupLast k rest with
    | some v' => some v'
    | none => if k' = k then some v else none

/-- Property access `j.field` (`none` models JS `undefined`). -/
def Json.getField : Json → String → Option Json
  | .obj fs, k => lookupLast k fs
  | _, _ => none

/-- Whether a number lexeme denotes zero: no nonzero digit in its mantissa. -/
def numLexIsZero (lex : String) : Bool :=
  (lex.data.takeWhile (fun c => c ≠ 'e' && c ≠ 'E')).all
    (fun c => !('1' ≤ c && c ≤ '9'))

/-- JS truthiness of a parsed JSON value (`null`, `false`, `0` and `""` are
falsy; objects and arrays are always truthy). -/
def Json.truthy : Json → Bool
  | .null => false
  | .bool b => b
  | .num lex => !numLexIsZero lex
  | .str s => !s.isEmpty
  | .arr _ => true
  | .obj _ => true

/-- Truthiness of `j.field`, with missing fields (JS `undefined`) falsy. -/
def Json.fieldTruthy (j : Json) (k : String) : Bool :=
  ((j.getField k).map Json.truthy).getD false

/-- JSON insignificant whitespace. -/
def isJsonWs (c : Char) : Bool :=
  c = ' ' || c = '\t' || c = '\n' || c = '\r'

/-- Skip insignificant whitespace. -/
def skipWs (cs : List Char) : List Char := cs.dropWhile isJsonWs

/-- Decimal digit test. -/
def isDigitCh (c : Char) : Bool := '0' ≤ c && c ≤ '9'

/-- Hexadecimal digit value (codepoint ranges 0-9, a-f, A-F). -/
def hexVal (c : Char) : Option Nat :=
  let n := c.toNat
  if 48 ≤ n && n ≤ 57 then some (n - 48)
  else if 97 ≤ n && n ≤ 102 then some (n - 87)
  else if 65 ≤ n && n ≤ 70 then some (n - 55)
  else none

/-- Body of a JSON string literal, after the opening quote: returns the
decoded characters and the remaining input past the closing quote. -/
def parseStringBody : List Char → Option (List Char × List Char)
  | [] => none
  | '"' :: rest => some ([], rest)
  | '\\' :: rest =>
    match rest with
    | '"' :: r => (parseStringBody r).map (fun p => ('"' :: p.1, p.2))
    | '\\' :: r => (parseStringBody r).map (fun p => ('\\' :: p.1, p.2))
    | '/' :: r => (parseStringBody r).map (fun p => ('/' :: p.1, p.2))
    | 'b' :: r => (parseStringBody r).map (fun p => ('\x08' :: p.1, p.2))
    | 'f' :: r => (parseStringBody r).map (fun p => ('\x0c' :: p.1, p.2))
    | 'n' :: r => (parseStringBody r).map (fun p => ('\n' :: p.1, p.2))
    | 'r' :: r => (parseStringBody r).map (fun p => ('\r' :: p.1, p.2))
    | 't' :: r => (parseStringBody r).map (fun p => ('\t' :: p.1, p.2))
    | 'u' :: h1 :: h2 :: h3 :: h4 :: r =>
      match hexVal h1, hexVal h2, hexVal h3, hexVal h4 with
      | some a, some b, some c, some d =>
        (parseStringBody r).map
          (fun p => (Char.ofNat (((a * 16 + b) * 16 + c) * 16 + d) :: p.1, p.2))
      | _, _, _, _ => none
    | _ => none
  | c :: rest =>
    if c.toNat < 32 then none
    else (parseStringBody rest).map (fun p => (c :: p.1, p.2))

/-- A JSON number lexeme: `-? int frac? exp?`; returns the lexeme and rest. -/
def parseNumber (cs : List Char) : Option (List Char × List Char) :=
  let (sign, cs1) :=
    match cs with
    | '-' :: r => (['-'], r)
    | _ => ([], cs)
  match cs1 with
  | '0' :: r1 => some (parseNumTail sign ['0'] r1)
  | c :: r1 =>
    if '1' ≤ c && c ≤ '9' then
      let ds := r1.takeWhile isDigitCh
      some (parseNumTail sign (c :: ds) (r1.dropWhile isDigitCh))
    else none
  | [] => none
where
  /-- Optional fraction and exponent after the integer part. -/
  parseNumTail (sign intPart : List Char) (cs : List Char) : List Char × List Char :=
    let (fracPart, cs2) :=
      match cs with
      | '.' :: r =>
        let ds := r.takeWhile isDigitCh
        if ds.isEmpty then ([], cs) else ('.' :: ds, r.dropWhile isDigitCh)
      | _ => ([], cs)
    let (expPart, cs3) :=
      match cs2 with
      | e :: r =>
        if e = 'e' || e = 'E' then
          let (es, r2) :=
            match r with
            | s :: r2 => if s = '+' || s = '-' then ([e, s], r2) else ([e], r)
            | [] => ([e], r)
          let ds := r2.takeWhile isDigitCh
          if ds.isEmpty then ([], cs2) else (es ++ ds, r2.dropWhile isDigitCh)
        else ([], cs2)
      | [] => ([], cs2)
    (sign ++ intPart ++ fracPart ++ expPart, cs3)

mutual

/-- One JSON value (leading whitespace allowed); `fuel` dominates the
recursion depth. -/
def parseVal (fuel : Nat) (cs : List Char) : Option (Json × List Char) :=
  match fuel with
  | 0 => none
  | f + 1 =>
    match skipWs cs with
    | '"' :: rest => (parseStringBody rest).map (fun p => (Json.str ⟨p.1⟩, p.2))
    | '{' :: rest => parseObjRest f rest
    | '[' :: rest => parseArrRest f rest
    | 't' :: 'r' :: 'u' :: 'e' :: rest => some (Json.bool true, rest)
    | 'f' :: 'a' :: 'l' :: 's' :: 'e' :: rest => some (Json.bool false, rest)
    | 'n' :: 'u' :: 'l' :: 'l' :: rest => some (Json.null, rest)
    | other => (parseNumber other).map (fun p => (Json.num ⟨p.1⟩, p.2))

/-- Object body after `{`. -/
def parseObjRest (fuel : Nat) (cs : List Char) : Option (Json × List Char) :=
  match fuel with
  | 0 => none
  | f + 1 =>
    match skipWs cs with
    | '}' :: rest => some (Json.obj [], rest)
    | _ => parseMembers f cs []

/-- Members of a non-empty object body. -/
def parseMembers (fuel : Nat) (cs : List Char) (acc : List (String × Json)) :
    Option (Json × List Char) :=
  match fuel with
  | 0 => none
  | f + 1 =>
    match skipWs cs with
    | '"' :: rest =>
      match parseStringBody rest with
      | none => none
      | some (key, r1) =>
        match skipWs r1 with
        | ':' :: r2 =>
          match parseVal f r2 with
          | none => none
          | some (v, r3) =>
            match skipWs r3 with
            | ',' :: r4 => parseMembers f r4 (acc ++ [(⟨key⟩, v)])
            | '}' :: r4 => some (Json.obj (acc ++ [(⟨key⟩, v)]), r4)
            | _ => none
        | _ => none
    | _ => none

/-- Array body after `[`. -/
def parseArrRest (fuel : Nat) (cs : List Char) : Option (Json × List Char) :=
  match fuel with
  | 0 => none
  | f + 1 =>
    match skipWs cs with
    | ']' :: rest => some (Json.arr [], rest)
    | _ => parseElems f cs []

/-- Elements of a non-empty array body. -/
def parseElems (fuel : Nat) (cs : List Char) (acc : List Json) :
    Option (Json × List Char) :=
  match fuel with
  | 0 => none
  | f + 1 =>
    match parseVal f cs with
    | none => none
    | some (v, r1) =>
      match skipWs r1 with
      | ',' :: r2 => parseElems f r2 (acc ++ [v])
      | ']' :: r2 => some (Json.arr (acc ++ [v]), r2)
      | _ => none

end

/-- `JSON.parse`: the whole input must be a single JSON value surrounded by
at most whitespace; `none` models a thrown `SyntaxError`.  Every recursive
step of the grammar consumes input, so `3 * length + 3` fuel never runs out
on inputs the grammar accepts. -/
def jsonParse (s : String) : Option Json :=
  match parseVal (3 * s.data.length + 3) s.data with
  | some (v, rest) => if (skipWs rest).isEmpty then some v else none
  | none => none

/-! ## Assessment records (tier-3 synthesis and fallback) -/

/-- One entry of the `dimensions` object built by `generateDimensionsAnalysis`
(field names `type` / `confidence` / `reason` as in the source).  The `type`
field models the JS expression `chars[i]`: a one-character string, or
`undefined` (`none`) when the index is out of range. -/
structure DimensionResult where
  type : Option Char
  confidence : ℚ
  reason : String
deriving DecidableEq, Repr

/-- The structured assessment object built by `generateBasicAnalysis` /
`generateFallbackAnalysis`.  The `dimensions` JS object is an ordered
association list (JS object insertion order). -/
structure AssessmentResult where
  mbtiType : String
  confidence : ℚ
  dimensions : List (String × DimensionResult)
  description : String
  strengths : List String
  developmentAreas : List String
  careerSuggestions : List String
deriving DecidableEq, Repr

/-- One entry of the static `typeDescriptions` table. -/
structure TypeInfo where
  description : String
  strengths : List String
  developmentAreas : List String
  careerSuggestions : List String
deriving DecidableEq, Repr

/-- The `ENFP` entry of `typeDescriptions` (also the fallback for unmapped
types: `typeDescriptions[mbtiType] || typeDescriptions['ENFP']`). -/
def enfpInfo : TypeInfo :=
  { description := "ENFP（倡导者）是充满热情和创造力的理想主义者，善于激励他人并发现新的可能性。"
    strengths := ["富有创造力", "善于激励他人", "适应性强", "充满热情"]
    developmentAreas := ["提高专注力", "加强细节管理", "学会处理批评"]
    careerSuggestions := ["创意设计", "教育培训", "人力资源", "媒体传播"] }

/-- The `INTJ` entry of `typeDescriptions`. -/
def intjInfo : TypeInfo :=
  { description := "INTJ（建筑师）是独立的思想家，具有强烈的直觉和战略思维能力。"
    strengths := ["战略思维", "独立工作", "系统性思考", "目标导向"]
    developmentAreas := ["改善人际交往", "增强灵活性", "学会团队合作"]
    careerSuggestions := ["系统分析", "研究开发", "战略规划", "技术管理"] }

/-- The built-in `typeDescriptions` table of `generateBasicAnalysis`. -/
def typeDescriptions : List (String × TypeInfo) :=
  [("ENFP", enfpInfo), ("INTJ", intjInfo)]

/-- `generateDimensionsAnalysis(mbtiType)`: one `DimensionResult` per axis,
fixed confidence `0.75`, pole taken from `mbtiType.split('')[i]` and a
templated reason naming the pole. -/
def generateDimensionsAnalysis (mbtiType : String) : List (String × DimensionResult) :=
  let chars := mbtiType.data
  [("EI",
    { type := chars.get? 0
      confidence := 0.75
      reason := "基于对话分析，用户表现出" ++
        (if chars.get? 0 = some 'E' then "外向" else "内向") ++ "的特征" }),
   ("SN",
    { type := chars.get? 1
      confidence := 0.75
      reason := "用户在信息处理上偏向" ++
        (if chars.get? 1 = some 'S' then "感觉" else "直觉") ++ "型" }),
   ("TF",
    { type := chars.get? 2
      confidence := 0.75
      reason := "决策风格倾向于" ++
        (if chars.get? 2 = some 'T' then "理性思考" else "情感考虑") }),
   ("JP",
    { type := chars.get? 3
      confidence := 0.75
      reason := "生活方式更偏向" ++
        (if chars.get? 3 = some 'J' then "有序规划" else "灵活适应") })]

/-- `generateBasicAnalysis(mbtiType)`: static template lookup (falling back
to the `ENFP` entry) plus the synthesized per-axis dimensions. -/
def generateBasicAnalysis (mbtiType : String) : AssessmentResult :=
  let typeInfo := (typeDescriptions.lookup mbtiType).getD enfpInfo
  { mbtiType := mbtiType
    confidence := 0.7
    dimensions := generateDimensionsAnalysis mbtiType
    description := typeInfo.description
    strengths := typeInfo.strengths
    developmentAreas := typeInfo.developmentAreas
    careerSuggestions := typeInfo.careerSuggestions }

/-- `generateFallbackAnalysis()`: the hardcoded `ENFP` default returned when
the analysis step throws or no tier recovers a result. -/
def generateFallbackAnalysis : AssessmentResult :=
  { mbtiType := "ENFP"
    confidence := 0.6
    dimensions :=
      [("EI", { type := some 'E', confidence := 0.6
                reason := "基于有限的对话信息推测用户偏向外向" }),
       ("SN", { type := some 'N', confidence := 0.6
                reason := "用户表现出一定的直觉型特征" }),
       ("TF", { type := some 'F', confidence := 0.6
                reason := "决策时似乎更重视人际关系和情感因素" }),
       ("JP", { type := some 'P', confidence := 0.6
                reason := "表现出较强的灵活性和开放性" })]
    description := "基于有限的对话信息，初步分析显示用户可能属于ENFP类型。建议进行更深入的对话以获得更准确的分析结果。"
    strengths := ["善于交流", "富有创意", "适应性强", "关心他人"]
    developmentAreas := ["需要更多信息来准确评估发展领域"]
    careerSuggestions := ["建议进行更详细的对话以提供准确的职业建议"] }

/-! ## Result parser (`parseAnalysisResult` and `parseAlternativeFormat`) -/

/-- The first match of the greedy regex `/\{[\s\S]*\}/`: the slice from the
first `\x7b` to the last `\x7d`, provided that pair exists in that order. -/
def extractJsonCandidate (s : String) : Option String :=
  match s.data.findIdx? (fun c => c = '{'), s.data.reverse.findIdx? (fun c => c = '}') with
  | some i, some jr =>
    let j := s.data.length - 1 - jr
    if i < j then some ⟨(s.data.drop i).take (j - i + 1)⟩ else none
  | _, _ => none

/-- Uppercase ASCII letter (the regex class `[A-Z]`). -/
def isUpperA (c : Char) : Bool := 'A' ≤ c && c ≤ 'Z'

/-- The first match of `/[A-Z]{4}/` in a line: the leftmost window of four
consecutive uppercase ASCII letters. -/
def firstUpper4 : List Char → Option String
  | c1 :: c2 :: c3 :: c4 :: rest =>
    if isUpperA c1 && isUpperA c2 && isUpperA c3 && isUpperA c4 then
      some ⟨[c1, c2, c3, c4]⟩
    else firstUpper4 (c2 :: c3 :: c4 :: rest)
  | _ => none

/-- Whether a line qualifies for the loose scan:
`line.includes('mbtiType') || line.includes('类型')`. -/
def lineQualifies (line : List Char) : Bool :=
  containsSub "mbtiType".data line || containsSub "类型".data line

/-- The loose line scan of `parseAlternativeFormat`: the first qualifying
line that actually contains a four-uppercase-letter run supplies the type
(a qualifying line without such a run does not stop the scan). -/
def extractTypeFromLines : List (List Char) → Option String
  | [] => none
  | line :: rest =>
    if lineQualifies line then
      match firstUpper4 line with
      | some t => some t
      | none => extractTypeFromLines rest
    else extractTypeFromLines rest

/-- `parseAlternativeFormat(content)`: split into lines, recover a 4-letter
type from a qualifying line, and synthesize via `generateBasicAnalysis`;
`none` models the JS `return null`. -/
def parseAlternativeFormat (content : String) : Option AssessmentResult :=
  (extractTypeFromLines (splitOnChar '\n' content.data)).map generateBasicAnalysis

/-- Tier-1 validation: `analysis.mbtiType && analysis.dimensions &&
analysis.description` (JS truthiness of the decoded fields). -/
def tier1Valid (j : Json) : Bool :=
  j.fieldTruthy "mbtiType" && j.fieldTruthy "dimensions" && j.fieldTruthy "description"

/-- The value a successful parse hands back to `performMBTIAnalysis`: either
the raw `JSON.parse` object accepted by tier 1, or the `AssessmentResult`
synthesized by tiers 2–3. -/
inductive AnalysisOutcome where
  | parsed (j : Json)
  | synthesized (a : AssessmentResult)

/-- The `mbtiType` property of an analysis outcome (a raw JSON value for a
tier-1 object; the synthesized string otherwise). -/
def AnalysisOutcome.mbtiVal : AnalysisOutcome → Option Json
  | .parsed j => j.getField "mbtiType"
  | .synthesized a => some (.str a.mbtiType)

/-- Truthiness of `analysis.mbtiType` as tested by `performMBTIAnalysis`. -/
def AnalysisOutcome.mbtiTruthy (o : AnalysisOutcome) : Bool :=
  ((o.mbtiVal).map Json.truthy).getD false

/-- `parseAnalysisResult(content)`.  The `JSON.parse` call sits inside the
function's `try`; a decode failure is caught and answered with `null`
directly, so the loose line scan only runs when no brace-delimited candidate
exists or when the decoded object fails the field validation. -/
def parseAnalysisResult (content : String) : Option AnalysisOutcome :=
  match extractJsonCandidate content with
  | some cand =>
    match jsonParse cand with
    | some j =>
      if tier1Valid j then some (.parsed j)
      else (parseAlternativeFormat content).map .synthesized
    | none => none
  | none => (parseAlternativeFormat content).map .synthesized

/-! ## Configuration (`src/config/config.js`) -/

/-- The MBTI-analysis part of `AI_CONFIG` (the transport fields `apiKey`,
`baseURL`, `model`, `temperature`, `maxTokens` configure the external gateway
and are not consulted by the logic embedded here). -/
structure AIConfig where
  minQuestionsBeforeAnalysis : Nat
  analysisKeywords : List String

/-- `AI_CONFIG` from `src/config/config.js`. -/
def AI_CONFIG : AIConfig :=
  { minQuestionsBeforeAnalysis := 4
    analysisKeywords :=
      ["分析", "总结", "结论", "性格类型", "MBTI", "判断", "评估", "看起来", "根据", "综合"] }

/-! ## Session state and the analysis trigger -/

/-- The reactive `userInfo` record.  `mbtiType` starts as JS `null` and is
later assigned `analysis.mbtiType`, which for a tier-1 decode is a raw JSON
value, hence `Option Json`.  The placeholder maps `traits` / `collectedData`
are never populated. -/
structure UserInfo where
  mbtiType : Option Json
  traits : List (String × String)
  questionsAsked : Nat
  collectedData : List (String × String)

/-- The module-level mutable state of `aiService.js` relevant to the embedded
logic: the conversation store, the `userInfo` record and the `isAnalyzing`
reentrancy flag. -/
structure SessionState where
  conversationHistory : List Turn
  userInfo : UserInfo
  isAnalyzing : Bool

/-- The state right after module initialization. -/
def initialState : SessionState :=
  { conversationHistory := []
    userInfo := { mbtiType := none, traits := [], questionsAsked := 0, collectedData := [] }
    isAnalyzing := false }

/-! ## Dimension-coverage heuristic (`hasCollectedEnoughDimensionInfo`) -/

/-- The fixed per-axis keyword table of `hasCollectedEnoughDimensionInfo`,
in the `Object.entries` order EI, SN, TF, JP. -/
def dimensionKeywords : List (String × List String) :=
  [("EI", ["聚会", "社交", "独处", "交流", "朋友", "人群", "安静", "热闹"]),
   ("SN", ["细节", "直觉", "可能性", "未来", "现实", "抽象", "具体", "想象"]),
   ("TF", ["决定", "感受", "逻辑", "情感", "理性", "价值观", "公平", "和谐"]),
   ("JP", ["计划", "灵活", "规律", "随性", "截止日期", "自由", "结构", "变化"])]

/-- `conversationHistory.map(msg => msg.content).join(' ').toLowerCase()`. -/
def conversationText (history : List Turn) : List Char :=
  (joinWithSpace (history.map (fun t => t.content))).map jsToLowerChar

/-- The number of axes whose keyword set has at least one member occurring in
the joined, lowercased transcript (the `coveredDimensions` counter). -/
def coveredDimensions (history : List Turn) : Nat :=
  (dimensionKeywords.filter
      (fun p => p.2.any (fun kw => containsSub kw.data (conversationText history)))).length

/-- `hasCollectedEnoughDimensionInfo()`: at least 3 of the 4 axes covered. -/
def hasCollectedEnoughDimensionInfo (history : List Turn) : Bool :=
  decide (coveredDimensions history ≥ 3)

/-- `shouldAnalyze(aiResponse)`: enough questions asked, and either a
configured keyword occurs (case-sensitively) in the reply or the coverage
heuristic fires. -/
def shouldAnalyze (aiResponse : String) (s : SessionState) : Bool :=
  let hasEnoughQuestions :=
    decide (s.userInfo.questionsAsked ≥ AI_CONFIG.minQuestionsBeforeAnalysis)
  let hasAnalysisIntent :=
    AI_CONFIG.analysisKeywords.any (fun kw => containsSub kw.data aiResponse.data)
  let hasEnoughInfo := hasCollectedEnoughDimensionInfo s.conversationHistory
  hasEnoughQuestions && (hasAnalysisIntent || hasEnoughInfo)

/-! ## Orchestration

The second gateway call (the analysis request) is passed in as
`analysisResponse : Except String String`; the third component of
`performMBTIAnalysis`'s result counts how many gateway invocations the call
actually issued (0 when the reentrancy guard drops the attempt, 1 otherwise),
so no-overlap statements can be made about a sequential execution. -/

/-- `performMBTIAnalysis()`.  Guarded by `isAnalyzing`; any throw inside the
`try` (a gateway failure, or the explicit throw when no tier recovers a
result) is answered with `generateFallbackAnalysis()`, and the `finally`
clears the flag. -/
def performMBTIAnalysis (analysisResponse : Except String String) (s : SessionState) :
    Option AnalysisOutcome × SessionState × Nat :=
  if s.isAnalyzing then (none, s, 0)
  else
    match analysisResponse with
    | .error _ =>
      (some (.synthesized generateFallbackAnalysis), { s with isAnalyzing := false }, 1)
    | .ok content =>
      match parseAnalysisResult content with
      | some a =>
        if a.mbtiTruthy then
          (some a,
           { s with userInfo := { s.userInfo with mbtiType := a.mbtiVal },
                    isAnalyzing := false }, 1)
        else
          (some (.synthesized generateFallbackAnalysis), { s with isAnalyzing := false }, 1)
      | none =>
        (some (.synthesized generateFallbackAnalysis), { s with isAnalyzing := false }, 1)

/-- The `{message, analysis, isComplete}` value resolved by `sendMessage`. -/
structure SendResult where
  message : String
  analysis : Option AnalysisOutcome
  isComplete : Bool

/-- `sendMessage(userMessage)`.  `ready` is `isModelReady`; `reply` is the
primary gateway call's outcome and `analysisResponse` feeds the analysis step
when the trigger fires.  The user turn is pushed before the gateway call, so
it survives a gateway failure while `questionsAsked` is only incremented
after a successful reply. -/
def sendMessage (ready : Bool) (userMessage : String) (reply : Except String String)
    (analysisResponse : Except String String) (s : SessionState) :
    Except String SendResult × SessionState :=
  if !ready then (.error "DeepSeek AI模型未初始化，请检查配置文件", s)
  else
    let s1 :=
      { s with conversationHistory := s.conversationHistory ++ [⟨Role.user, userMessage⟩] }
    match reply with
    | .error e => (.error ("AI请求失败: " ++ e), s1)
    | .ok content =>
      let s2 :=
        { s1 with
            conversationHistory := s1.conversationHistory ++ [⟨Role.assistant, content⟩]
            userInfo := { s1.userInfo with questionsAsked := s1.userInfo.questionsAsked + 1 } }
      if shouldAnalyze content s2 then
        let r := performMBTIAnalysis analysisResponse s2
        (.ok { message := content, analysis := r.1, isComplete := true }, r.2.1)
      else
        (.ok { message := content, analysis := none, isComplete := false }, s2)

/-- `getWelcomeMessage()`: on a successful gateway call the reply is appended
to the history (without touching `questionsAsked`); on failure or when the
model is not ready a hardcoded literal is returned and the state is left
unchanged. -/
def getWelcomeMessage (ready : Bool) (reply : Except String String) (s : SessionState) :
    String × SessionState :=
  if !ready then ("⚠️ DeepSeek AI模型未准备就绪，请检查配置文件中的API Key设置", s)
  else
    match reply with
    | .ok content =>
      (content,
       { s with conversationHistory := s.conversationHistory ++ [⟨Role.assistant, content⟩] })
    | .error _ =>
      ("你好！我是你的MBTI性格分析师。让我们开始了解你的性格特点吧！请告诉我，在一个聚会上，你通常更愿意与几个熟悉的朋友深入交谈，还是喜欢认识更多新朋友？", s)

/-- `resetConversation()`: empty the history, reset `userInfo`, clear the
reentrancy flag. -/
def resetConversation (_s : SessionState) : SessionState :=
  { conversationHistory := []
    userInfo := { mbtiType := none, traits := [], questionsAsked := 0, collectedData := [] }
    isAnalyzing := false }

/-- `getConversationHistory()`. -/
def getConversationHistory (s : SessionState) : List Turn :=
  s.conversationHistory

/-- `getUserInfo()`. -/
def getUserInfo (s : SessionState) : UserInfo :=
  s.userInfo

/-! ## Session traces

A session is a sequence of UI-driven operations on the shared state; each
`Event` carries the outcomes of the gateway calls the operation makes.  The
trace model fixes `ready := true` (an initialized model), matching the
sessions the spec's counting properties quantify over. -/

/-- One UI-driven operation together with its gateway outcomes. -/
inductive Event where
  | send (userMessage : String) (reply : Except String String)
      (analysisResponse : Except String String)
  | welcome (reply : Except String String)
  | reset

/-- The state transition of one event. -/
def applyEvent (s : SessionState) : Event → SessionState
  | .send m reply ar => (sendMessage true m reply ar s).2
  | .welcome reply => (getWelcomeMessage true reply s).2
  | .reset => resetConversation s

/-- Run a list of events left to right. -/
def runEvents (s : SessionState) : List Event → SessionState
  | [] => s
  | e :: es => runEvents (applyEvent s e) es

/-- Number of assistant turns in a history. -/
def assistantCount (h : List Turn) : Nat :=
  (h.filter (fun t => decide (t.role = Role.assistant))).length

/-- Folding step counting successful `sendMessage` events, zeroed by reset. -/
def sendSuccessStep (n : Nat) : Event → Nat
  | .reset => 0
  | .send _ (.ok _) _ => n + 1
  | _ => n

/-- Successful `sendMessage` events since the last reset. -/
def sendSuccessCount (events : List Event) : Nat :=
  events.foldl sendSuccessStep 0

/-- Folding step counting successful welcome calls, zeroed by reset. -/
def welcomeSuccessStep (n : Nat) : Event → Nat
  | .reset => 0
  | .welcome (.ok _) => n + 1
  | _ => n

/-- Successful `getWelcomeMessage` gateway calls since the last reset. -/
def welcomeSuccessCount (events : List Event) : Nat :=
  events.foldl welcomeSuccessStep 0

/-- Folding step tracking the number of assistant turns, zeroed by reset. -/
def assistantStep (n : Nat) : Event → Nat
  | .reset => 0
  | .send _ (.ok _) _ => n + 1
  | .welcome (.ok _) => n + 1
  | _ => n

/-! ## Spec-side comparison definitions -/

/-- Modelled from the spec: the claim's reading of the coverage heuristic, in
which the turn texts are concatenated with no separator before lowercasing
and the keyword scan (the code instead joins them with a single space). -/
def specCoveredDimensions (history : List Turn) : Nat :=
  let text :=
    ((history.map (fun t => t.content)).foldl (fun a b => a ++ b) "").data.map jsToLowerChar
  (dimensionKeywords.filter (fun p => p.2.any (fun kw => containsSub kw.data text))).length

/-- The data-model consistency invariant: the dimensions list the four axes
in the fixed order EI, SN, TF, JP, and their pole entries spell the type
code character by character. -/
def mbtiConsistent (mbtiType : String) (dims : List (String × DimensionResult)) : Prop :=
  dims.map Prod.fst = ["EI", "SN", "TF", "JP"] ∧
  dims.map (fun p => p.2.type) = mbtiType.data.map some

/-! ## Concrete transcripts used by witnesses and counterexamples -/

/-- A transcript whose space-joined text covers exactly the axes EI, SN, TF. -/
def threeAxisHistory : List Turn :=
  [⟨Role.user, "聚会"⟩, ⟨Role.assistant, "细节"⟩, ⟨Role.user, "决定"⟩]

/-- A transcript whose space-joined text covers exactly the axes EI and JP. -/
def twoAxisHistory : List Turn :=
  [⟨Role.user, "聚会"⟩, ⟨Role.assistant, "计划"⟩]

/-- A transcript in which the EI keyword 聚会 is split across two adjacent
turns, so it occurs in the plain concatenation of the turn texts but not in
the space-joined text the code scans. -/
def splitKeywordHistory : List Turn :=
  [⟨Role.user, "聚"⟩, ⟨Role.assistant, "会"⟩, ⟨Role.user, "细节"⟩, ⟨Role.assistant, "决定"⟩]

/-! ## Claim C1 -/

/-- Claim C1: `shouldAnalyze` returns true iff `questionsAsked` has reached
`minQuestionsBeforeAnalysis` (which defaults to 4) and either some configured
`analysisKeywords` entry occurs case-sensitively in the reply or the
dimension-coverage heuristic reports at least 3 of the 4 axes covered; below
the threshold it returns false regardless of the reply. -/
theorem C1_shouldAnalyze_trigger_iff :
    (∀ (s : SessionState) (reply : String),
        shouldAnalyze reply s = true ↔
          AI_CONFIG.minQuestionsBeforeAnalysis ≤ s.userInfo.questionsAsked ∧
            ((∃ kw ∈ AI_CONFIG.analysisKeywords, containsSub kw.data reply.data = true) ∨
              3 ≤ coveredDimensions s.conversationHistory)) ∧
    AI_CONFIG.minQuestionsBeforeAnalysis = 4 ∧
    (∀ (s : SessionState) (reply : String),
        s.userInfo.questionsAsked < AI_CONFIG.minQuestionsBeforeAnalysis →
          shouldAnalyze reply s = false) := by
  refine ⟨fun s reply => ?_, rfl, fun s reply h => ?_⟩
  · simp [shouldAnalyze, hasCollectedEnoughDimensionInfo, List.any_eq_true, ge_iff_le]
  · have hq : decide (s.userInfo.questionsAsked ≥ AI_CONFIG.minQuestionsBeforeAnalysis)
        = false := decide_eq_false (by omega)
    simp [shouldAnalyze, hq]

/-- Witness for C1: with zero questions asked the trigger stays false even
though the reply contains the keyword 分析. -/
theorem C1_shouldAnalyze_trigger_iff_witness :
    shouldAnalyze "我们来做个分析" initialState = false :=
  C1_shouldAnalyze_trigger_iff.2.2 initialState "我们来做个分析" (by decide)

/-! ## Claim C2 -/

/-- Counterexample to C2: in `splitKeywordHistory` the keyword 聚会 spans a
turn boundary, so the plain concatenation the claim describes covers 3 axes
(EI, SN, TF), yet the code — which joins the turns with a space — sees only
2 covered axes and returns false. -/
theorem C2_concatenation_counterexample :
    3 ≤ specCoveredDimensions splitKeywordHistory ∧
    hasCollectedEnoughDimensionInfo splitKeywordHistory = false := by
  constructor <;> decide

/-- Claim C2 (amended): the heuristic joins the turn texts of both roles with
a single space, lowercases the result, counts an axis as covered when one of
its keywords occurs as a substring, and returns true exactly when at least 3
of the 4 axes are covered; a count of exactly 3 yields true and a count of
exactly 2 yields false. -/
theorem C2_coverage_threshold :
    ∀ history : List Turn,
      (hasCollectedEnoughDimensionInfo history = true ↔ 3 ≤ coveredDimensions history) ∧
      (coveredDimensions history = 3 → hasCollectedEnoughDimensionInfo history = true) ∧
      (coveredDimensions history = 2 → hasCollectedEnoughDimensionInfo history = false) := by
  intro history
  refine ⟨by simp [hasCollectedEnoughDimensionInfo, ge_iff_le], fun h3 => ?_, fun h2 => ?_⟩
  · simp [hasCollectedEnoughDimensionInfo, h3]
  · simp [hasCollectedEnoughDimensionInfo, h2]

/-- Witness for C2: a transcript covering exactly 3 axes triggers the
heuristic and one covering exactly 2 axes does not. -/
theorem C2_coverage_threshold_witness :
    hasCollectedEnoughDimensionInfo threeAxisHistory = true ∧
    hasCollectedEnoughDimensionInfo twoAxisHistory = false :=
  ⟨(C2_coverage_threshold threeAxisHistory).2.1 (by decide),
   (C2_coverage_threshold twoAxisHistory).2.2 (by decide)⟩

/-! ## Claim C8 -/

/-- Claim C8: after `resetConversation()` the history reads back empty,
`questionsAsked` is 0, `mbtiType` is null and the reentrancy flag is clear,
regardless of the prior state. -/
theorem C8_reset_clears_state :
    ∀ s : SessionState,
      getConversationHistory (resetConversation s) = [] ∧
      (getUserInfo (resetConversation s)).questionsAsked = 0 ∧
      (getUserInfo (resetConversation s)).mbtiType = none ∧
      (resetConversation s).isAnalyzing = false :=
  fun _ => ⟨rfl, rfl, rfl, rfl⟩

/-! ## Claim C9 -/

/-- Claim C9: when the primary gateway call fails, `sendMessage` re-throws
the error, yet the user turn pushed before the call stays in the history and
`questionsAsked` is not incremented. -/
theorem C9_send_failure_keeps_user_turn :
    ∀ (s : SessionState) (msg e : String) (ar : Except String String),
      (sendMessage true msg (.error e) ar s).1 = .error ("AI请求失败: " ++ e) ∧
      (sendMessage true msg (.error e) ar s).2.conversationHistory =
        s.conversationHistory ++ [⟨Role.user, msg⟩] ∧
      (sendMessage true msg (.error e) ar s).2.userInfo.questionsAsked =
        s.userInfo.questionsAsked :=
  fun _ _ _ _ => ⟨rfl, rfl, rfl⟩

/-! ## Claim C10 -/

/-- Claim C10: for every 4-character type string, the tier-3 synthesis builds
exactly the four axes EI, SN, TF, JP in order, with the pole of each axis
equal to the corresponding character of the type, so every tier-3-synthesized
result satisfies the type/pole consistency invariant. -/
theorem C10_tier3_pole_consistency :
    ∀ t : String, t.data.length = 4 →
      mbtiConsistent t (generateDimensionsAnalysis t) ∧
      (generateBasicAnalysis t).mbtiType = t ∧
      (generateBasicAnalysis t).dimensions = generateDimensionsAnalysis t := by
  intro t ht
  obtain ⟨cs⟩ := t
  rcases cs with _ | ⟨c0, _ | ⟨c1, _ | ⟨c2, _ | ⟨c3, _ | ⟨c4, tl⟩⟩⟩⟩⟩ <;>
    simp only [List.length_cons, List.length_nil] at ht <;> try omega
  exact ⟨⟨rfl, rfl⟩, rfl, rfl⟩

/-- Witness for C10 at the concrete type INTJ. -/
theorem C10_tier3_pole_consistency_witness :
    mbtiConsistent "INTJ" (generateDimensionsAnalysis "INTJ") :=
  (C10_tier3_pole_consistency "INTJ" rfl).1

/-! ## Claim C3 -/

/-- Counterexample to C3: this text's brace-delimited candidate fails to
decode, and `parseAnalysisResult` answers null at once — the tier-2 line
scan, which would recover INTJ from the first line, is never attempted. -/
theorem C3_parse_error_counterexample :
    parseAnalysisResult "类型: INTJ\n{oops}" = none ∧
    parseAlternativeFormat "类型: INTJ\n{oops}" = some (generateBasicAnalysis "INTJ") :=
  ⟨rfl, rfl⟩

/-- Claim C3 (amended): the parser proceeds to the tier-2 loose line scan
when tier 1 finds no brace-delimited candidate, or when the candidate decodes
but lacks a truthy `mbtiType`, `dimensions` or `description` field; when the
extracted candidate fails to decode, however, the exception handler returns
null directly without attempting tier 2. -/
theorem C3_tier2_reachability :
    ∀ content : String,
      (extractJsonCandidate content = none →
        parseAnalysisResult content =
          (parseAlternativeFormat content).map AnalysisOutcome.synthesized) ∧
      (∀ cand, extractJsonCandidate content = some cand → jsonParse cand = none →
        parseAnalysisResult content = none) ∧
      (∀ cand j, extractJsonCandidate content = some cand → jsonParse cand = some j →
        tier1Valid j = false →
        parseAnalysisResult content =
          (parseAlternativeFormat content).map AnalysisOutcome.synthesized) := by
  intro content
  refine ⟨fun h => ?_, fun cand h hj => ?_, fun cand j h hj hv => ?_⟩
  · simp [parseAnalysisResult, h]
  · simp [parseAnalysisResult, h, hj]
  · simp [parseAnalysisResult, h, hj, hv]

/-- Witness for C3: an undecodable candidate yields null, and a brace-free
text reaches tier 2. -/
theorem C3_tier2_reachability_witness :
    parseAnalysisResult "分析{nope}结束" = none ∧
    parseAnalysisResult "类型是 WXYZ" =
      (parseAlternativeFormat "类型是 WXYZ").map AnalysisOutcome.synthesized :=
  ⟨(C3_tier2_reachability "分析{nope}结束").2.1 "{nope}" rfl rfl,
   (C3_tier2_reachability "类型是 WXYZ").1 rfl⟩

/-! ## Claim C4 -/

/-- Counterexample to C4: this text contains no valid JSON object and has a
qualifying 类型 line with the run ENFJ, yet the parser returns null because
the undecodable brace candidate `\x7bx\x7d` short-circuits the tiers. -/
theorem C4_tier23_counterexample :
    extractTypeFromLines (splitOnChar '\n' ("类型: ENFJ\n{x}").data) = some "ENFJ" ∧
    jsonParse "{x}" = none ∧
    parseAnalysisResult "类型: ENFJ\n{x}" = none :=
  ⟨rfl, rfl, rfl⟩

/-- Claim C4 (amended): for every input text in which tier 1 finds no
brace-delimited candidate but whose line scan recovers a four-uppercase run
from a line containing `mbtiType` or 类型, the parser synthesizes a result
whose `mbtiType` is that run, whose four per-axis entries each carry
confidence 0.75 with a templated reason, and whose description, strengths,
development areas and career suggestions come from the built-in two-entry
table keyed by the type, with unmapped types falling back to the ENFP
entry. -/
theorem C4_tier23_synthesis :
    ∀ (content t : String),
      extractJsonCandidate content = none →
      extractTypeFromLines (splitOnChar '\n' content.data) = some t →
      parseAnalysisResult content = some (.synthesized (generateBasicAnalysis t)) ∧
      (generateBasicAnalysis t).mbtiType = t ∧
      (generateBasicAnalysis t).dimensions = generateDimensionsAnalysis t ∧
      (generateBasicAnalysis t).dimensions.map Prod.fst = ["EI", "SN", "TF", "JP"] ∧
      (∀ p ∈ (generateBasicAnalysis t).dimensions, p.2.confidence = 0.75) ∧
      typeDescriptions.length = 2 ∧
      (generateBasicAnalysis t).description =
        ((typeDescriptions.lookup t).getD enfpInfo).description ∧
      (generateBasicAnalysis t).strengths =
        ((typeDescriptions.lookup t).getD enfpInfo).strengths ∧
      (generateBasicAnalysis t).developmentAreas =
        ((typeDescriptions.lookup t).getD enfpInfo).developmentAreas ∧
      (generateBasicAnalysis t).careerSuggestions =
        ((typeDescriptions.lookup t).getD enfpInfo).careerSuggestions := by
  intro content t h ht
  refine ⟨?_, rfl, rfl, rfl, ?_, rfl, rfl, rfl, rfl, rfl⟩
  · simp [parseAnalysisResult, h, parseAlternativeFormat, ht]
  · intro p hp
    fin_cases hp <;> rfl

/-- Witness for C4 at the concrete line 类型: INTJ. -/
theorem C4_tier23_synthesis_witness :
    parseAnalysisResult "类型: INTJ" = some (.synthesized (generateBasicAnalysis "INTJ")) :=
  (C4_tier23_synthesis "类型: INTJ" "INTJ" rfl rfl).1

/-! ## Claim C5 -/

/-- Claim C5: whenever the analysis gateway call throws or the whole parser
pipeline recovers nothing, `performMBTIAnalysis` returns the hardcoded ENFP
default with confidence 0.6 instead of propagating an error. -/
theorem C5_analysis_fallback :
    (∀ (s : SessionState) (e : String), s.isAnalyzing = false →
        (performMBTIAnalysis (.error e) s).1 =
          some (.synthesized generateFallbackAnalysis)) ∧
    (∀ (s : SessionState) (c : String), s.isAnalyzing = false →
        parseAnalysisResult c = none →
        (performMBTIAnalysis (.ok c) s).1 =
          some (.synthesized generateFallbackAnalysis)) ∧
    generateFallbackAnalysis.mbtiType = "ENFP" ∧
    generateFallbackAnalysis.confidence = 0.6 ∧
    (∀ p ∈ generateFallbackAnalysis.dimensions, p.2.confidence = 0.6) := by
  refine ⟨fun s e h => ?_, fun s c h hp => ?_, rfl, rfl, ?_⟩
  · simp [performMBTIAnalysis, h]
  · simp [performMBTIAnalysis, h, hp]
  · intro p hp
    fin_cases hp <;> rfl

/-- Witness for C5: the fallback result is produced both on a gateway error
and on an unparseable analysis reply. -/
theorem C5_analysis_fallback_witness :
    (performMBTIAnalysis (.error "网络错误") initialState).1 =
      some (.synthesized generateFallbackAnalysis) ∧
    (performMBTIAnalysis (.ok "无法给出结果") initialState).1 =
      some (.synthesized generateFallbackAnalysis) :=
  ⟨C5_analysis_fallback.1 initialState "网络错误" rfl,
   C5_analysis_fallback.2.1 initialState "无法给出结果" rfl rfl⟩

/-! ## Claim C6 -/

/-- Claim C6: with the reentrancy flag set, `performMBTIAnalysis` returns
immediately with no result, no state change and zero gateway calls; an
actually-running invocation issues exactly one gateway call and leaves the
flag cleared, so in the sequential execution model no two analysis gateway
calls are ever in flight at once. -/
theorem C6_reentrancy_guard :
    ∀ (resp : Except String String) (s : SessionState),
      (s.isAnalyzing = true →
        performMBTIAnalysis resp s = (none, s, 0)) ∧
      (s.isAnalyzing = false →
        (performMBTIAnalysis resp s).2.1.isAnalyzing = false ∧
        (performMBTIAnalysis resp s).2.2 = 1) := by
  intro resp s
  refine ⟨fun h => ?_, fun h => ?_⟩
  · simp [performMBTIAnalysis, h]
  · cases resp with
    | error e => simp [performMBTIAnalysis, h]
    | ok c =>
      cases hp : parseAnalysisResult c with
      | none => simp [performMBTIAnalysis, h, hp]
      | some a => cases ht : a.mbtiTruthy <;> simp [performMBTIAnalysis, h, hp, ht]

/-- A state with an analysis already in flight. -/
def analyzingState : SessionState := { initialState with isAnalyzing := true }

/-- Witness for C6: a concrete reentrant call is dropped with zero gateway
calls, and a concrete non-reentrant call issues exactly one. -/
theorem C6_reentrancy_guard_witness :
    performMBTIAnalysis (.error "重复调用") analyzingState = (none, analyzingState, 0) ∧
    (performMBTIAnalysis (.ok "结论") initialState).2.2 = 1 :=
  ⟨(C6_reentrancy_guard (.error "重复调用") analyzingState).1 rfl,
   ((C6_reentrancy_guard (.ok "结论") initialState).2 rfl).2⟩

/-! ## Claim C7: trace bookkeeping lemmas -/

theorem runEvents_cons (s : SessionState) (e : Event) (es : List Event) :
    runEvents s (e :: es) = runEvents (applyEvent s e) es := rfl

theorem assistantCount_append (l1 l2 : List Turn) :
    assistantCount (l1 ++ l2) = assistantCount l1 + assistantCount l2 := by
  simp [assistantCount, List.filter_append]

/-- The analysis step never touches the history or the question counter. -/
theorem performMBTIAnalysis_preserves (r : Except String String) (s : SessionState) :
    (performMBTIAnalysis r s).2.1.conversationHistory = s.conversationHistory ∧
    (performMBTIAnalysis r s).2.1.userInfo.questionsAsked = s.userInfo.questionsAsked := by
  cases h : s.isAnalyzing with
  | true => simp [performMBTIAnalysis, h]
  | false =>
    cases r with
    | error e => simp [performMBTIAnalysis, h]
    | ok c =>
      cases hp : parseAnalysisResult c with
      | none => simp [performMBTIAnalysis, h, hp]
      | some a => cases ht : a.mbtiTruthy <;> simp [performMBTIAnalysis, h, hp, ht]

/-- `sendMessage` on a successful reply, with the lets inlined. -/
theorem sendMessage_ok_eq (m c : String) (ar : Except String String) (s : SessionState) :
    sendMessage true m (.ok c) ar s =
      (let s2 : SessionState :=
        { s with
            conversationHistory :=
              (s.conversationHistory ++ [⟨Role.user, m⟩]) ++ [⟨Role.assistant, c⟩]
            userInfo := { s.userInfo with questionsAsked := s.userInfo.questionsAsked + 1 } }
      if shouldAnalyze c s2 then
        (.ok { message := c, analysis := (performMBTIAnalysis ar s2).1, isComplete := true },
          (performMBTIAnalysis ar s2).2.1)
      else (.ok { message := c, analysis := none, isComplete := false }, s2)) := rfl

/-- One successful `sendMessage` adds one assistant turn and one question. -/
theorem sendMessage_ok_state (m c : String) (ar : Except String String) (s : SessionState) :
    (sendMessage true m (.ok c) ar s).2.userInfo.questionsAsked
        = s.userInfo.questionsAsked + 1 ∧
    assistantCount (sendMessage true m (.ok c) ar s).2.conversationHistory =
      assistantCount s.conversationHistory + 1 := by
  simp only [sendMessage_ok_eq]
  split
  · constructor
    · exact (performMBTIAnalysis_preserves ar _).2
    · rw [show ((performMBTIAnalysis ar _).2.1 : SessionState).conversationHistory =
          (s.conversationHistory ++ [⟨Role.user, m⟩]) ++ [⟨Role.assistant, c⟩] from
          (performMBTIAnalysis_preserves ar _).1]
      rw [assistantCount_append, assistantCount_append]
      simp [assistantCount]
  · constructor
    · rfl
    · show assistantCount
          ((s.conversationHistory ++ [⟨Role.user, m⟩]) ++ [⟨Role.assistant, c⟩]) = _
      rw [assistantCount_append, assistantCount_append]
      simp [assistantCount]

/-- Effect of one event on the two counters. -/
theorem applyEvent_counts (s : SessionState) (e : Event) :
    (applyEvent s e).userInfo.questionsAsked = sendSuccessStep s.userInfo.questionsAsked e ∧
    assistantCount (applyEvent s e).conversationHistory =
      assistantStep (assistantCount s.conversationHistory) e := by
  cases e with
  | reset => exact ⟨rfl, rfl⟩
  | welcome r =>
    cases r with
    | ok c =>
      refine ⟨rfl, ?_⟩
      show assistantCount (s.conversationHistory ++ [⟨Role.assistant, c⟩]) = _
      rw [assistantCount_append]
      simp [assistantCount, assistantStep]
    | error e => exact ⟨rfl, rfl⟩
  | send m r ar =>
    cases r with
    | error e =>
      refine ⟨rfl, ?_⟩
      show assistantCount (s.conversationHistory ++ [⟨Role.user, m⟩]) = _
      rw [assistantCount_append]
      simp [assistantCount, assistantStep]
    | ok c => exact sendMessage_ok_state m c ar s

theorem runEvents_counts (events : List Event) :
    ∀ s : SessionState,
      (runEvents s events).userInfo.questionsAsked =
        events.foldl sendSuccessStep s.userInfo.questionsAsked ∧
      assistantCount (runEvents s events).conversationHistory =
        events.foldl assistantStep (assistantCount s.conversationHistory) := by
  induction events with
  | nil => exact fun s => ⟨rfl, rfl⟩
  | cons e es ih =>
    intro s
    have h := applyEvent_counts s e
    have h2 := ih (applyEvent s e)
    constructor
    · rw [runEvents_cons, List.foldl_cons, ← h.1]
      exact h2.1
    · rw [runEvents_cons, List.foldl_cons, ← h.2]
      exact h2.2

theorem foldl_assistantStep_split (events : List Event) :
    ∀ q w : Nat,
      events.foldl assistantStep (q + w) =
        events.foldl sendSuccessStep q + events.foldl welcomeSuccessStep w := by
  induction events with
  | nil => intro q w; rfl
  | cons e es ih =>
    intro q w
    rw [List.foldl_cons, List.foldl_cons, List.foldl_cons]
    cases e with
    | reset => exact ih 0 0
    | send m r ar =>
      cases r with
      | ok c =>
        show es.foldl assistantStep (q + w + 1) =
          es.foldl sendSuccessStep (q + 1) + es.foldl welcomeSuccessStep w
        rw [show q + w + 1 = q + 1 + w from by omega]
        exact ih (q + 1) w
      | error err => exact ih q w
    | welcome r =>
      cases r with
      | ok c => exact ih q (w + 1)
      | error err => exact ih q w

/-! ## Claim C7 -/

/-- Counterexample to C7: after a single successful welcome call, one
assistant reply has been appended but `questionsAsked` is still 0, so the
count that includes the welcome message does not match. -/
theorem C7_welcome_counterexample :
    (runEvents initialState [Event.welcome (.ok "你好")]).userInfo.questionsAsked ≠
      assistantCount
        (runEvents initialState [Event.welcome (.ok "你好")]).conversationHistory := by
  decide

/-- Claim C7 (amended): along every trace of an initialized session,
`questionsAsked` equals the number of assistant replies appended by
successful `sendMessage` calls since the last reset; the welcome message
appends an assistant turn without incrementing the counter, so the total
number of assistant turns is that count plus the successful welcome calls. -/
theorem C7_questionsAsked_counts_sends :
    ∀ events : List Event,
      (runEvents initialState events).userInfo.questionsAsked = sendSuccessCount events ∧
      assistantCount (runEvents initialState events).conversationHistory =
        sendSuccessCount events + welcomeSuccessCount events := by
  intro events
  have h := runEvents_counts events initialState
  refine ⟨h.1, ?_⟩
  have h2 := h.2
  rw [show assistantCount initialState.conversationHistory = 0 + 0 from rfl,
    foldl_assistantStep_split] at h2
  exact h2

end MbtiBot
